import Mathlib

/-!
Shallow embedding of `src/cubes/backends/sql/functions.py`: the registry of
named SQL aggregate functions (`sum`, `count_nonempty`, `min`, `max`, `avg`,
`stddev`, `variance`, `identity`, `count`) together with the application
protocol of `AggregateFunction` and its subclasses, and theorems settling the
claims about coalescing behaviour, error handling and the lazy registry.

SQLAlchemy expressions are modelled by the inductive `SqlExpr`; the external
collaborators (browser context, cube, aggregate specification) are modelled by
structures exposing exactly the attributes the module reads.
-/

namespace Cubes

/-- SQLAlchemy expression objects, as far as this module builds and combines
them: a resolved measure column, an integer literal, `sql.functions.coalesce(e, d)`,
`expr.label(name)`, and an aggregate-constructor call.  Calls are split into
`appCol f c extras` — `f(c, *extras)` with a leading column/expression
argument — and `appArgs f extras` — `f(*extras)` with no leading expression —
because the only extra positional arguments occurring in the module are
integer literals (the `1` of `count`). -/
inductive SqlExpr where
  | column (cname : String)
  | lit (n : Int)
  | coalesce (e : SqlExpr) (default : Int)
  | label (e : SqlExpr) (lname : String)
  | appCol (fname : String) (col : SqlExpr) (extras : List Int)
  | appArgs (fname : String) (extras : List Int)
deriving DecidableEq, Repr

/-- Errors raised by the module.  `cubes/errors.py` itself is not among the
sources; `modelError` is the module's `ModelError`, `keyError` the `KeyError`
of the registry dictionary lookup, `typeError`/`attributeError` the Python
errors of a bad call.  `configurationError` is, in the spec's taxonomy, the
class of the missing-collaborator failure at application time. -/
inductive CubesError where
  | configurationError (msg : String)
  | modelError (msg : String)
  | keyError (key : String)
  | typeError (msg : String)
  | attributeError (msg : String)
deriving DecidableEq, Repr

/-- Modelled from the spec: the class `InternalError` is imported from the
missing `cubes/errors.py` via `from ...errors import *`.  The spec's error
taxonomy has exactly one class for a "required collaborator (`context`)
missing at application time" failure, the one it calls `ConfigurationError`,
so the source's `InternalError` raise is modelled as that class. -/
def InternalError (msg : String) : CubesError :=
  CubesError.configurationError msg

/-- The module's `ModelError` constructor (class body in the missing
`cubes/errors.py`; only its name and message are used here). -/
def ModelError (msg : String) : CubesError :=
  CubesError.modelError msg

/-- The callables stored in `self.function`: the SQLAlchemy aggregate
constructors (`sql.functions.sum`, `sql.functions.count`, `sql.functions.min`,
`sql.functions.max`) and the `ReturnTypeFromArgs` wrappers `avg`, `stddev`,
`variance` are all opaque expression builders (`sqlFn`); `identityLambda` is
the literal `lambda c: c` registered for `identity`. -/
inductive SqlFunc where
  | sqlFn (fname : String)
  | identityLambda
deriving DecidableEq, Repr

/-- Calling `self.function(col?, *extras)`: an expression builder returns the
corresponding call expression; the `lambda c: c` returns its single argument
and fails with a `TypeError` on any other arity. -/
def SqlFunc.call : SqlFunc → Option SqlExpr → List Int → Except CubesError SqlExpr
  | .sqlFn f, some c, extras => .ok (.appCol f c extras)
  | .sqlFn f, none, extras => .ok (.appArgs f extras)
  | .identityLambda, some c, [] => .ok c
  | .identityLambda, _, _ =>
      .error (.typeError "lambda takes exactly one positional argument")

/-- A measure of the cube model, as resolved by `context.cube.measure`;
opaque to this module, identified here by its reference string. -/
structure Measure where
  ref : String
deriving DecidableEq, Repr

/-- The cube part of the browser context: exposes `measure(ref)` resolving a
measure reference.  External collaborator, modelled as an opaque resolver. -/
structure Cube where
  measure : String → Measure

/-- The browser context collaborator: exposes `cube` and `column(measure)`,
the measure-to-column resolution for the active query. -/
structure BrowserContext where
  cube : Cube
  column : Measure → SqlExpr

/-- The aggregate specification collaborator: exposes `.name` (the result
label) and `.measure` (an optional measure reference). -/
structure Aggregate where
  name : String
  measure : Option String
deriving DecidableEq, Repr

/-- Python `str(aggregate)` as used in the `ModelError` message; the collaborator's
string form is its name. -/
def Aggregate.str (a : Aggregate) : String := a.name

/-- Python truthiness of `aggregate.measure`: `not aggregate.measure` is true
when the reference is `None` or the empty string. -/
def measureFalsy : Option String → Bool
  | none => true
  | some s => s.isEmpty

/-- The four classes of the `AggregateFunction` hierarchy, used as the
dispatch tag for the overridden methods. -/
inductive FunctionKind where
  | plain
  | valueCoalescing
  | summaryCoalescing
  | generative
deriving DecidableEq, Repr

/-- An `AggregateFunction` instance: `name`, the stored callable `function`,
and the stored extra positional arguments `args` (`self.kwargs` is empty for
every instance constructed in the module and is omitted). -/
structure AggregateFunction where
  kind : FunctionKind
  name : String
  function : SqlFunc
  args : List Int
deriving DecidableEq, Repr

/-- The class attribute `requires_measure = True`; no subclass overrides it
and no code in the module reads it. -/
def AggregateFunction.requires_measure (_ : AggregateFunction) : Bool := true

/-- The class attribute `coalesce_values = True`; no subclass overrides it
and no code in the module reads it. -/
def AggregateFunction.coalesce_values (_ : AggregateFunction) : Bool := true

/-- Modelled from the spec: the spec's `requiresMeasure` flag is "true for
all variants except the generative one" (the source's `requires_measure`
attribute, above, is uniformly `True` and dead).  This classifier selects the
variants whose `apply` is the measure-resolving base implementation. -/
def requiresMeasureSpec (f : AggregateFunction) : Bool :=
  f.kind != FunctionKind.generative

/-- Method `coalesce_value`: the base implementation returns the value unchanged;
`ValueCoalescingFunction` overrides it with `sql.functions.coalesce(value, 0)`. -/
def AggregateFunction.coalesce_value (f : AggregateFunction)
    (_aggregate : Aggregate) (value : SqlExpr) : SqlExpr :=
  match f.kind with
  | .valueCoalescing => SqlExpr.coalesce value 0
  | _ => value

/-- Method `coalesce_aggregate`: the base implementation returns the value unchanged;
`SummaryCoalescingFunction` overrides it with `sql.functions.coalesce(value, 0)`. -/
def AggregateFunction.coalesce_aggregate (f : AggregateFunction)
    (_aggregate : Aggregate) (value : SqlExpr) : SqlExpr :=
  match f.kind with
  | .summaryCoalescing => SqlExpr.coalesce value 0
  | _ => value

/-- Method `apply(aggregate, context=None, coalesce=False)`.  `GenerativeFunction`
overrides it with `return self.function(*self.args, **self.kwargs)`; every
other class runs the base implementation: check context, check
`aggregate.measure`, resolve the column, optionally `coalesce_value` it,
call `self.function(column, *self.args, **self.kwargs)`, and optionally
compute `coalesce_aggregate` — whose result the source assigns back to the
local `column`, not to `expression`, so `return expression` returns the
uncoalesced aggregate. -/
def AggregateFunction.apply (f : AggregateFunction) (aggregate : Option Aggregate)
    (context : Option BrowserContext) (coalesce : Bool) : Except CubesError SqlExpr :=
  match f.kind with
  | .generative => f.function.call none f.args
  | _ =>
    match context with
    | none => .error (InternalError "No context provided for AggregationFunction")
    | some ctx =>
      match aggregate with
      | none => .error (.attributeError "NoneType object has no attribute measure")
      | some agg =>
        if measureFalsy agg.measure then
          .error (ModelError ("No measure specified for aggregate " ++ agg.str ++
                              ", required for aggregate function " ++ f.name))
        else
          let measure := ctx.cube.measure (agg.measure.getD "")
          let column := ctx.column measure
          let column := if coalesce then f.coalesce_value agg column else column
          match f.function.call (some column) f.args with
          | .error e => .error e
          | .ok expression =>
            -- source line: `column = self.coalesce_aggregate(aggregate, expression)`
            -- followed by `return expression`; the wrapped value is discarded
            let _column := if coalesce then f.coalesce_aggregate agg expression else column
            .ok expression

/-- Method `__call__(aggregate, context, coalesce=False)`: applies the function via
`apply` and labels the resulting expression with the aggregate's name. -/
def AggregateFunction.call (f : AggregateFunction) (aggregate : Aggregate)
    (context : Option BrowserContext) (coalesce : Bool) : Except CubesError SqlExpr :=
  match f.apply (some aggregate) context coalesce with
  | .error e => .error e
  | .ok expression => .ok (SqlExpr.label expression aggregate.name)

/-- Constructor `ValueCoalescingFunction(name_, function_, *args)`. -/
def ValueCoalescingFunction (name : String) (function : SqlFunc)
    (args : List Int) : AggregateFunction :=
  { kind := .valueCoalescing, name := name, function := function, args := args }

/-- Constructor `SummaryCoalescingFunction(name_, function_, *args)`. -/
def SummaryCoalescingFunction (name : String) (function : SqlFunc)
    (args : List Int) : AggregateFunction :=
  { kind := .summaryCoalescing, name := name, function := function, args := args }

/-- Constructor `GenerativeFunction(name, function, *args, **kwargs)`: its `__init__`
calls `super(GenerativeFunction, self).__init__(name, function)`, forwarding
neither `args` nor `kwargs`, so the stored `self.args` is always empty. -/
def GenerativeFunction (name : String) (function : SqlFunc)
    (_args : List Int) : AggregateFunction :=
  { kind := .generative, name := name, function := function, args := [] }

/-- The fixed tuple `_functions` of the nine built-in appliers. -/
def _functions : List AggregateFunction :=
  [ SummaryCoalescingFunction "sum" (.sqlFn "sum") [],
    SummaryCoalescingFunction "count_nonempty" (.sqlFn "count") [],
    ValueCoalescingFunction "min" (.sqlFn "min") [],
    ValueCoalescingFunction "max" (.sqlFn "max") [],
    ValueCoalescingFunction "avg" (.sqlFn "avg") [],
    ValueCoalescingFunction "stddev" (.sqlFn "stddev") [],
    ValueCoalescingFunction "variance" (.sqlFn "variance") [],
    ValueCoalescingFunction "identity" .identityLambda [],
    GenerativeFunction "count" (.sqlFn "count") [1] ]

/-- The registry mapping, a Python dict keyed by function name; insertion
replaces an existing binding for the same key. -/
abbrev FunctionDict := List (String × AggregateFunction)

/-- Assignment `d[k] = v` on a Python dict: replace the binding of `k` if present,
append it otherwise. -/
def dictInsert (d : FunctionDict) (k : String) (v : AggregateFunction) : FunctionDict :=
  if d.any (fun p => p.1 = k) then
    d.map (fun p => if p.1 = k then (k, v) else p)
  else
    d ++ [(k, v)]

/-- Lookup `d[k]` on a Python dict: the bound applier, or a `KeyError`. -/
def dictGet (d : FunctionDict) (k : String) : Except CubesError AggregateFunction :=
  match d.find? (fun p => p.1 = k) with
  | some p => .ok p.2
  | none => .error (.keyError k)

/-- The module-level `_function_dict = {}`: the registry state at process
start, before any lookup. -/
def _function_dict : FunctionDict := []

/-- Function `_create_function_dict()`: populate the dict from `_functions` if it is
still empty, otherwise leave it untouched.  The mutable global is threaded as
explicit state. -/
def _create_function_dict (d : FunctionDict) : FunctionDict :=
  if d.isEmpty then
    _functions.foldl (fun d func => dictInsert d func.name func) d
  else
    d

/-- Function `get_aggregate_function(name)`: ensure the dict is populated, then look
`name` up.  Returns the result together with the post-call registry state. -/
def get_aggregate_function (name : String) (d : FunctionDict) :
    Except CubesError AggregateFunction × FunctionDict :=
  let d := _create_function_dict d
  (dictGet d name, d)

/-- Function `available_aggregate_functions()`: ensure the dict is populated, then
return its keys, together with the post-call registry state. -/
def available_aggregate_functions (d : FunctionDict) : List String × FunctionDict :=
  let d := _create_function_dict d
  (d.map (fun p => p.1), d)

/-- The nine built-in function names, in registration order. -/
def builtinNames : List String :=
  ["sum", "count_nonempty", "min", "max", "avg", "stddev", "variance",
   "identity", "count"]

/-- The registry state after the one-time population. -/
def fullFunctionDict : FunctionDict := _create_function_dict _function_dict

/-- A client call touching the registry: either `get_aggregate_function name`
or `available_aggregate_functions`. -/
inductive RegistryOp where
  | get (name : String)
  | listAvailable
deriving DecidableEq, Repr

/-- The registry state after one client call. -/
def registryStep (op : RegistryOp) (d : FunctionDict) : FunctionDict :=
  match op with
  | .get name => (get_aggregate_function name d).2
  | .listAvailable => (available_aggregate_functions d).2

/-- The registry state after a sequence of client calls. -/
def registryRun (ops : List RegistryOp) (d : FunctionDict) : FunctionDict :=
  ops.foldl (fun d op => registryStep op d) d

/-- The column a context resolves for a measure reference,
`context.column(context.cube.measure(ref))`. -/
def resolvedColumn (ctx : BrowserContext) (ref : String) : SqlExpr :=
  ctx.column (ctx.cube.measure ref)

/-- A concrete demonstration context whose columns are named after the
measure references they resolve. -/
def demoCtx : BrowserContext :=
  { cube := { measure := fun ref => { ref := ref } },
    column := fun m => SqlExpr.column m.ref }

/-- An aggregate specification requesting the `revenue` measure with label
`total_revenue`. -/
def revenueAgg : Aggregate := { name := "total_revenue", measure := some "revenue" }

/-- An aggregate specification requesting the `price` measure with label
`min_price`. -/
def priceAgg : Aggregate := { name := "min_price", measure := some "price" }

/-- An aggregate specification carrying no measure reference. -/
def bareAgg : Aggregate := { name := "bare", measure := none }

/-- C1: for the SummaryCoalescing appliers (`sum`, `count_nonempty`) the claim
says `apply` with `coalesce = true` returns the `underlyingFunction` result
wrapped in `COALESCE(., 0)`.  The code computes the wrapper via
`coalesce_aggregate` but assigns it to the local `column` and returns the
unwrapped `expression`: at the input below, `sum` with `coalesce = true`
returns `SUM(revenue)` and not `COALESCE(SUM(revenue), 0)` (with
`coalesce = false` the unwrapped result is returned, as claimed). -/
theorem sum_coalesce_true_output_not_wrapped :
    (SummaryCoalescingFunction "sum" (.sqlFn "sum") []).apply
        (some revenueAgg) (some demoCtx) true
      = .ok (SqlExpr.appCol "sum" (SqlExpr.column "revenue") [])
    ∧ (SummaryCoalescingFunction "sum" (.sqlFn "sum") []).coalesce_aggregate
        revenueAgg (SqlExpr.appCol "sum" (SqlExpr.column "revenue") [])
      = SqlExpr.coalesce (SqlExpr.appCol "sum" (SqlExpr.column "revenue") []) 0
    ∧ (SummaryCoalescingFunction "sum" (.sqlFn "sum") []).apply
        (some revenueAgg) (some demoCtx) false
      = .ok (SqlExpr.appCol "sum" (SqlExpr.column "revenue") [])
    ∧ SqlExpr.appCol "sum" (SqlExpr.column "revenue") []
      ≠ SqlExpr.coalesce (SqlExpr.appCol "sum" (SqlExpr.column "revenue") []) 0 :=
  ⟨rfl, rfl, rfl, by decide⟩

/-- C2: the claim says the `count` applier returns `underlyingFunction(1)`
(`COUNT(1)`) for every input.  `apply` indeed succeeds for every combination
of arguments, including a null aggregate and a null context, and ignores the
`coalesce` flag, but `GenerativeFunction.__init__` forwards only
`(name, function)` to the base initializer, dropping the registered literal
`1`: the stored argument tuple is empty and the call is `count()` with no
arguments, not `count(1)`. -/
theorem count_apply_ignores_inputs_but_drops_argument :
    (∀ (aggregate : Option Aggregate) (context : Option BrowserContext) (coalesce : Bool),
        (GenerativeFunction "count" (.sqlFn "count") [1]).apply aggregate context coalesce
          = .ok (SqlExpr.appArgs "count" []))
    ∧ (GenerativeFunction "count" (.sqlFn "count") [1]).args = []
    ∧ SqlExpr.appArgs "count" [] ≠ SqlExpr.appArgs "count" [1] :=
  ⟨fun _ _ _ => rfl, rfl, by decide⟩

/-- C3 counterexample: the claim says the applier registered as `identity` is
the plain non-coalescing variant, returning the raw resolved column for both
values of the `coalesce` flag.  It is registered as a
`ValueCoalescingFunction`, so with `coalesce = true` it returns the column
wrapped in `COALESCE(., 0)`, not the raw column. -/
theorem identity_coalesce_true_wraps_column :
    (ValueCoalescingFunction "identity" .identityLambda []).apply
        (some priceAgg) (some demoCtx) true
      = .ok (SqlExpr.coalesce (SqlExpr.column "price") 0)
    ∧ SqlExpr.coalesce (SqlExpr.column "price") 0 ≠ SqlExpr.column "price" :=
  ⟨rfl, by decide⟩

/-- C3 (amended): the applier registered as `identity` is a ValueCoalescing
variant wrapping `lambda c: c`: for every measure-carrying aggregate and
non-null context, `apply` with `coalesce = false` returns the raw resolved
column unmodified, and with `coalesce = true` returns the column wrapped in
`COALESCE(., 0)` before the identity function is applied, with no output
coalescing in either case. -/
theorem identity_applier_value_coalescing (ctx : BrowserContext) (agg : Aggregate)
    (m : String) (hm : agg.measure = some m) (hne : m.isEmpty = false) :
    (ValueCoalescingFunction "identity" .identityLambda []).apply
        (some agg) (some ctx) false = .ok (resolvedColumn ctx m)
    ∧ (ValueCoalescingFunction "identity" .identityLambda []).apply
        (some agg) (some ctx) true
      = .ok (SqlExpr.coalesce (resolvedColumn ctx m) 0) := by
  constructor <;>
    simp [AggregateFunction.apply, ValueCoalescingFunction, measureFalsy, hm, hne,
      AggregateFunction.coalesce_value, SqlFunc.call, resolvedColumn]

/-- C3 witness: the amended identity behaviour evaluated at the `price`
aggregate and the demonstration context. -/
theorem identity_applier_value_coalescing_witness :
    (ValueCoalescingFunction "identity" .identityLambda []).apply
        (some priceAgg) (some demoCtx) false = .ok (SqlExpr.column "price")
    ∧ (ValueCoalescingFunction "identity" .identityLambda []).apply
        (some priceAgg) (some demoCtx) true
      = .ok (SqlExpr.coalesce (SqlExpr.column "price") 0) :=
  identity_applier_value_coalescing demoCtx priceAgg "price" rfl rfl

/-- A helper: the spec classifier `requiresMeasureSpec` selects exactly the
non-generative kinds. -/
theorem requiresMeasureSpec_kind (f : AggregateFunction)
    (h : requiresMeasureSpec f = true) : f.kind ≠ FunctionKind.generative := by
  simpa [requiresMeasureSpec] using h

/-- A helper: the base `apply` implementation checks the context before
anything else and fails with the missing-context error when it is null. -/
theorem apply_none_context_eq (f : AggregateFunction)
    (hk : f.kind ≠ FunctionKind.generative) (aggregate : Option Aggregate)
    (coalesce : Bool) :
    f.apply aggregate none coalesce
      = .error (InternalError "No context provided for AggregationFunction") := by
  obtain ⟨k, n, fn, args⟩ := f
  cases k <;> first | rfl | exact absurd rfl hk

/-- A helper: with a context present, the base `apply` implementation fails
with the missing-measure `ModelError` when `aggregate.measure` is falsy. -/
theorem apply_missing_measure_eq (f : AggregateFunction)
    (hk : f.kind ≠ FunctionKind.generative) (ctx : BrowserContext)
    (agg : Aggregate) (hmeas : measureFalsy agg.measure = true) (coalesce : Bool) :
    f.apply (some agg) (some ctx) coalesce
      = .error (ModelError ("No measure specified for aggregate " ++ agg.str ++
                            ", required for aggregate function " ++ f.name)) := by
  obtain ⟨k, n, fn, args⟩ := f
  cases k <;> first
    | exact absurd rfl hk
    | simp [AggregateFunction.apply, hmeas]

/-- C4: for every applier of a variant with `requiresMeasure = true` (every
non-generative applier), calling `apply` with a null context fails with the
"no context provided" error of the spec's configuration-error class (the
source's `InternalError`), for every aggregate — present, measureless or null
— and for both values of the `coalesce` flag. -/
theorem requires_measure_no_context_fails (f : AggregateFunction)
    (hrm : requiresMeasureSpec f = true) (aggregate : Option Aggregate)
    (coalesce : Bool) :
    f.apply aggregate none coalesce
      = .error (InternalError "No context provided for AggregationFunction") :=
  apply_none_context_eq f (requiresMeasureSpec_kind f hrm) aggregate coalesce

/-- C4 witness: the `sum` applier applied with a null context and a
measure-carrying aggregate, at `coalesce = true`. -/
theorem requires_measure_no_context_fails_witness :
    (SummaryCoalescingFunction "sum" (.sqlFn "sum") []).apply
        (some revenueAgg) none true
      = .error (InternalError "No context provided for AggregationFunction") :=
  requires_measure_no_context_fails
    (SummaryCoalescingFunction "sum" (.sqlFn "sum") []) (by decide)
    (some revenueAgg) true

/-- C5: for every applier of a variant with `requiresMeasure = true`, calling
`apply` with a non-null context and an aggregate whose measure reference is
absent fails with a `ModelError` naming the aggregate and the function,
independently of the `coalesce` flag. -/
theorem requires_measure_missing_measure_fails (f : AggregateFunction)
    (hrm : requiresMeasureSpec f = true) (ctx : BrowserContext) (agg : Aggregate)
    (hmeas : agg.measure = none) (coalesce : Bool) :
    f.apply (some agg) (some ctx) coalesce
      = .error (ModelError ("No measure specified for aggregate " ++ agg.str ++
                            ", required for aggregate function " ++ f.name)) :=
  apply_missing_measure_eq f (requiresMeasureSpec_kind f hrm) ctx agg
    (by simp [measureFalsy, hmeas]) coalesce

/-- C5 witness: the `min` applier applied to a measureless aggregate under
the demonstration context, at `coalesce = true`. -/
theorem requires_measure_missing_measure_fails_witness :
    (ValueCoalescingFunction "min" (.sqlFn "min") []).apply
        (some bareAgg) (some demoCtx) true
      = .error (ModelError
          "No measure specified for aggregate bare, required for aggregate function min") :=
  requires_measure_missing_measure_fails
    (ValueCoalescingFunction "min" (.sqlFn "min") []) (by decide) demoCtx bareAgg rfl true

/-- C10: for every applier of a variant with `requiresMeasure = true`, when
`apply` is called with both a null context and an aggregate lacking a measure
reference, the missing-context error is the one raised and the missing-measure
`ModelError` is never reached: the context check precedes the measure check. -/
theorem context_check_precedes_measure_check (f : AggregateFunction)
    (hrm : requiresMeasureSpec f = true) (agg : Aggregate)
    (hmeas : agg.measure = none) (coalesce : Bool) :
    f.apply (some agg) none coalesce
      = .error (InternalError "No context provided for AggregationFunction")
    ∧ ∀ msg, f.apply (some agg) none coalesce ≠ .error (CubesError.modelError msg) := by
  have h1 := apply_none_context_eq f (requiresMeasureSpec_kind f hrm) (some agg) coalesce
  refine ⟨h1, fun msg h => ?_⟩
  rw [h1] at h
  exact absurd (Except.error.inj h) (by simp [InternalError])

/-- C10 witness: the `min` applier applied with a null context and a
measureless aggregate raises the missing-context error, not the
missing-measure `ModelError`. -/
theorem context_check_precedes_measure_check_witness :
    (ValueCoalescingFunction "min" (.sqlFn "min") []).apply (some bareAgg) none true
      = .error (InternalError "No context provided for AggregationFunction")
    ∧ (ValueCoalescingFunction "min" (.sqlFn "min") []).apply (some bareAgg) none true
      ≠ .error (CubesError.modelError
          "No measure specified for aggregate bare, required for aggregate function min") :=
  ⟨(context_check_precedes_measure_check
      (ValueCoalescingFunction "min" (.sqlFn "min") []) (by decide) bareAgg rfl true).1,
   (context_check_precedes_measure_check
      (ValueCoalescingFunction "min" (.sqlFn "min") []) (by decide) bareAgg rfl true).2 _⟩

/-- C6: for the ValueCoalescing appliers registered as `min`, `max`, `avg`,
`stddev` and `variance`, `apply` with `coalesce = true` (context non-null,
aggregate carrying a measure) passes the resolved column wrapped in
`COALESCE(., 0)` to `underlyingFunction` and returns its output without any
further coalesce wrapping; with `coalesce = false` the raw column is passed. -/
theorem value_coalescing_input_wrapped (f : AggregateFunction)
    (hf : f ∈ _functions)
    (hname : f.name ∈ ["min", "max", "avg", "stddev", "variance"])
    (ctx : BrowserContext) (agg : Aggregate) (m : String)
    (hm : agg.measure = some m) (hne : m.isEmpty = false) :
    f.apply (some agg) (some ctx) true
      = .ok (SqlExpr.appCol f.name (SqlExpr.coalesce (resolvedColumn ctx m) 0) [])
    ∧ f.apply (some agg) (some ctx) false
      = .ok (SqlExpr.appCol f.name (resolvedColumn ctx m) []) := by
  simp only [_functions, List.mem_cons, List.not_mem_nil, or_false] at hf
  rcases hf with rfl | rfl | rfl | rfl | rfl | rfl | rfl | rfl | rfl <;>
    first
      | exact absurd hname (by decide)
      | (constructor <;>
          simp [AggregateFunction.apply, ValueCoalescingFunction, measureFalsy,
            hm, hne, AggregateFunction.coalesce_value, SqlFunc.call, resolvedColumn])

/-- C6 witness: the `min` applier under the demonstration context and the
`price` aggregate, for both values of the `coalesce` flag. -/
theorem value_coalescing_input_wrapped_witness :
    (ValueCoalescingFunction "min" (.sqlFn "min") []).apply
        (some priceAgg) (some demoCtx) true
      = .ok (SqlExpr.appCol "min" (SqlExpr.coalesce (SqlExpr.column "price") 0) [])
    ∧ (ValueCoalescingFunction "min" (.sqlFn "min") []).apply
        (some priceAgg) (some demoCtx) false
      = .ok (SqlExpr.appCol "min" (SqlExpr.column "price") []) :=
  value_coalescing_input_wrapped (ValueCoalescingFunction "min" (.sqlFn "min") [])
    (by decide) (by decide) demoCtx priceAgg "price" rfl rfl

/-- C7: for every registered applier, whenever `apply` succeeds, `__call__`
returns exactly the `apply` result with a label equal to `aggregate.name`
attached and performs no other transformation (the embedding is a pure
function of its inputs, so no input is mutated). -/
theorem call_labels_apply_result (f : AggregateFunction) (hf : f ∈ _functions)
    (agg : Aggregate) (context : Option BrowserContext) (coalesce : Bool)
    (e : SqlExpr) (happly : f.apply (some agg) context coalesce = .ok e) :
    f.call agg context coalesce = .ok (SqlExpr.label e agg.name) := by
  unfold AggregateFunction.call
  rw [happly]

/-- C7 witness: the `count` applier called on the `revenue` aggregate with a
null context carries the label `total_revenue`. -/
theorem call_labels_apply_result_witness :
    (GenerativeFunction "count" (.sqlFn "count") [1]).call revenueAgg none false
      = .ok (SqlExpr.label (SqlExpr.appArgs "count" []) "total_revenue") :=
  call_labels_apply_result (GenerativeFunction "count" (.sqlFn "count") [1])
    (by decide) revenueAgg none false (SqlExpr.appArgs "count" []) rfl

/-- C8: for each of the nine built-in names, `get_aggregate_function` returns
an applier whose `name` equals the requested name; for any other name it
fails with a `KeyError`; and `available_aggregate_functions` returns exactly
the nine built-in names and never an unregistered one. -/
theorem registry_lookup_and_listing :
    (∀ name ∈ builtinNames, ∃ f : AggregateFunction,
        (get_aggregate_function name _function_dict).1 = .ok f ∧ f.name = name)
    ∧ (∀ name : String, name ∉ builtinNames →
        (get_aggregate_function name _function_dict).1
          = .error (CubesError.keyError name))
    ∧ (available_aggregate_functions _function_dict).1 = builtinNames := by
  refine ⟨?_, ?_, by decide⟩
  · intro name hname
    simp only [builtinNames] at hname
    fin_cases hname
    · exact ⟨SummaryCoalescingFunction "sum" (.sqlFn "sum") [], rfl, rfl⟩
    · exact ⟨SummaryCoalescingFunction "count_nonempty" (.sqlFn "count") [], rfl, rfl⟩
    · exact ⟨ValueCoalescingFunction "min" (.sqlFn "min") [], rfl, rfl⟩
    · exact ⟨ValueCoalescingFunction "max" (.sqlFn "max") [], rfl, rfl⟩
    · exact ⟨ValueCoalescingFunction "avg" (.sqlFn "avg") [], rfl, rfl⟩
    · exact ⟨ValueCoalescingFunction "stddev" (.sqlFn "stddev") [], rfl, rfl⟩
    · exact ⟨ValueCoalescingFunction "variance" (.sqlFn "variance") [], rfl, rfl⟩
    · exact ⟨ValueCoalescingFunction "identity" .identityLambda [], rfl, rfl⟩
    · exact ⟨GenerativeFunction "count" (.sqlFn "count") [1], rfl, rfl⟩
  · intro name hname
    simp only [builtinNames, List.mem_cons, List.not_mem_nil, or_false, not_or] at hname
    obtain ⟨h1, h2, h3, h4, h5, h6, h7, h8, h9⟩ := hname
    have hfull : _create_function_dict _function_dict
        = [("sum", SummaryCoalescingFunction "sum" (.sqlFn "sum") []),
           ("count_nonempty", SummaryCoalescingFunction "count_nonempty" (.sqlFn "count") []),
           ("min", ValueCoalescingFunction "min" (.sqlFn "min") []),
           ("max", ValueCoalescingFunction "max" (.sqlFn "max") []),
           ("avg", ValueCoalescingFunction "avg" (.sqlFn "avg") []),
           ("stddev", ValueCoalescingFunction "stddev" (.sqlFn "stddev") []),
           ("variance", ValueCoalescingFunction "variance" (.sqlFn "variance") []),
           ("identity", ValueCoalescingFunction "identity" .identityLambda []),
           ("count", GenerativeFunction "count" (.sqlFn "count") [1])] := by decide
    simp [get_aggregate_function, hfull, dictGet, List.find?,
      SummaryCoalescingFunction, ValueCoalescingFunction, GenerativeFunction,
      Ne.symm h1, Ne.symm h2, Ne.symm h3, Ne.symm h4, Ne.symm h5,
      Ne.symm h6, Ne.symm h7, Ne.symm h8, Ne.symm h9]

/-- C8 witness: the registry lookup evaluated at the registered name `sum`
and at the unregistered name `nonexistent`. -/
theorem registry_lookup_and_listing_witness :
    (∃ f : AggregateFunction,
        (get_aggregate_function "sum" _function_dict).1 = .ok f ∧ f.name = "sum")
    ∧ (get_aggregate_function "nonexistent" _function_dict).1
        = .error (CubesError.keyError "nonexistent") :=
  ⟨registry_lookup_and_listing.1 "sum" (by decide),
   registry_lookup_and_listing.2.1 "nonexistent" (by decide)⟩

/-- A helper: the populated registry is nonempty, so `_create_function_dict`
leaves it unchanged. -/
theorem create_function_dict_full :
    _create_function_dict fullFunctionDict = fullFunctionDict := by decide

/-- A helper: once the registry is populated, neither entry point changes it. -/
theorem registryStep_full (op : RegistryOp) :
    registryStep op fullFunctionDict = fullFunctionDict := by
  cases op
  · simpa [registryStep, get_aggregate_function] using create_function_dict_full
  · simpa [registryStep, available_aggregate_functions] using create_function_dict_full

/-- A helper: any sequence of client calls leaves the populated registry
unchanged. -/
theorem registryRun_full (ops : List RegistryOp) :
    registryRun ops fullFunctionDict = fullFunctionDict := by
  induction ops with
  | nil => rfl
  | cons op ops ih =>
      have h0 : registryRun (op :: ops) fullFunctionDict
          = registryRun ops (registryStep op fullFunctionDict) := rfl
      rw [h0, registryStep_full op, ih]

/-- C9: the lazy initialization is idempotent and one-way: any non-empty
sequence of `get_aggregate_function` / `available_aggregate_functions` calls
starting from the empty process-start registry leaves it in the populated
state — it is populated exactly once and never mutated afterwards — and any
two calls to `available_aggregate_functions` return the same listing
regardless of the interleaving of calls before them. -/
theorem registry_init_idempotent_and_oneway :
    (∀ (op : RegistryOp) (ops : List RegistryOp),
        registryRun (op :: ops) _function_dict = fullFunctionDict)
    ∧ (∀ ops1 ops2 : List RegistryOp,
        (available_aggregate_functions (registryRun ops1 _function_dict)).1
          = (available_aggregate_functions (registryRun ops2 _function_dict)).1) := by
  have hrunpop : ∀ (op : RegistryOp) (ops : List RegistryOp),
      registryRun (op :: ops) _function_dict = fullFunctionDict := by
    intro op ops
    have h0 : registryRun (op :: ops) _function_dict
        = registryRun ops (registryStep op _function_dict) := rfl
    have h1 : registryStep op _function_dict = fullFunctionDict := by
      cases op <;> rfl
    rw [h0, h1, registryRun_full]
  have havail : ∀ ops : List RegistryOp,
      (available_aggregate_functions (registryRun ops _function_dict)).1
        = builtinNames := by
    intro ops
    cases ops with
    | nil => decide
    | cons op ops => rw [hrunpop op ops]; decide
  exact ⟨hrunpop, fun ops1 ops2 => by rw [havail ops1, havail ops2]⟩

end Cubes
